import Mathlib

/-!
Shallow embedding of the PDF_QA_Bot gateway (`src/server.js`) and proofs
about the claims of its specification.

The gateway is an Express application.  The parts embedded here are:
* the multer configuration (`fileFilter`, 10 MB size limit, disk storage
  with `Date.now() + "-" + originalname` filenames) — `src/server.js`
  lines 13–26, 184–204;
* the `POST /upload` handler with its `finally` cleanup block —
  lines 279–331;
* the `POST /ask`, `/summarize`, `/compare`, `/clear-history` handlers —
  lines 334–424;
* the `GET /health` route and the unconditional 503 "not ready" upload
  handler — lines 207–223, 457–459;
* the rate-limiter configuration `makeLimiter` — lines 169–181.
-/

namespace PdfQaBot

/-! ## File filter (src/server.js lines 18–26 and 196–203)

`fileFilter: (req, file, cb) => { if (file.mimetype === 'application/pdf')
cb(null, true); else cb(new Error('Only PDF files are allowed')); }`

The decision depends only on the declared `mimetype` field. -/

def fileFilter (mimetype : String) : Bool :=
  mimetype == "application/pdf"

/-- The magic-byte predicate named by the spec: the first bytes of the
stream match the PDF signature `%PDF-`.  (The source never computes
this; it is stated here to compare the code's behaviour against the
spec's claim.) -/
def pdfMagicMatches (content : List Char) : Bool :=
  "%PDF-".data.isPrefixOf content

/-- Multer's file-size limit from `limits: { fileSize: 10 * 1024 * 1024 }`. -/
def fileSizeLimit : Nat := 10 * 1024 * 1024

/-! ## Session state (express-session fields used by the handlers)

The handlers read and write exactly two fields of `req.session`:
`currentSessionId` and `chatHistory`.  Both start out absent
(`undefined` in JS), modelled with `Option`. -/

structure ChatTurn where
  role : String
  content : String
deriving DecidableEq, Repr

structure SessionState where
  currentSessionId : Option String
  chatHistory : Option (List ChatTurn)
deriving DecidableEq, Repr

/-! ## The POST /upload route (src/server.js lines 279–331)

The pipeline is: multer staging (file filter, size limit, disk write),
then the handler body: forward the staged file to the RAG service; on
success store `session_id` and reset `chatHistory`; on any error respond
500; in `finally`, `fs.unlink(filePath)` unconditionally.

The filesystem is modelled as the list of paths currently present.
Multer's middleware behaviour (no write when the filter rejects; the
partial file is removed when the size limit aborts the write; the
`MulterError` is turned into a 400/413 by the global error handler at
lines 440–453) is part of the staging step. -/

structure UploadFile where
  originalname : String
  mimetype : String
  size : Nat
  content : List Char
  path : String
deriving DecidableEq, Repr

/-- Outcome of the forwarded `axios.post` of the upload handler.  The
handler's `catch` treats every rejection alike, but failure and timeout
are kept apart so that both exit paths are visible. -/
inductive RagUploadResult where
  | ok (message : String) (sessionId : String)
  | err
  | timeout
deriving DecidableEq, Repr

structure UploadOutcome where
  status : Nat
  fs : List String
  sess : SessionState
deriving DecidableEq, Repr

def uploadRoute (file? : Option UploadFile) (fs : List String)
    (sess : SessionState) (rag : RagUploadResult) : UploadOutcome :=
  match file? with
  | none => ⟨400, fs, sess⟩
  | some f =>
    if fileFilter f.mimetype then
      if f.size ≤ fileSizeLimit then
        let fs₁ := fs ++ [f.path]
        match rag with
        | .ok _msg sid =>
          ⟨200, fs₁.erase f.path,
            { currentSessionId := some sid, chatHistory := some [] }⟩
        | .err => ⟨500, fs₁.erase f.path, sess⟩
        | .timeout => ⟨500, fs₁.erase f.path, sess⟩
      else
        ⟨413, fs, sess⟩
    else
      ⟨400, fs, sess⟩

/-! ## Staging paths (src/server.js lines 184–204)

`UPLOAD_DIR = path.resolve(__dirname, "uploads")`; the disk-storage
`filename` callback computes `Date.now() + "-" + file.originalname` and
always calls `cb(null, unique)` — it has no rejection branch.  Multer
joins destination and filename, and the operating system resolves the
resulting path, collapsing `.` and `..` segments.

Paths are modelled as lists of segments (lists of characters); the
server directory `__dirname` is taken to be `/srv`. -/

/-- Decimal rendering of a natural number (the JS string conversion of
`Date.now()`), written with explicit fuel so that it reduces on concrete
inputs. -/
def natCharsAux : Nat → Nat → List Char → List Char
  | 0, _, acc => acc
  | fuel + 1, n, acc =>
    let d := Nat.digitChar (n % 10)
    if n / 10 = 0 then d :: acc else natCharsAux fuel (n / 10) (d :: acc)

def natChars (n : Nat) : List Char := natCharsAux (n + 1) n []

/-- Split a path string into its nonempty `/`-separated segments. -/
def splitSegsAux : List Char → List Char → List (List Char)
  | [], cur => if cur = [] then [] else [cur.reverse]
  | c :: rest, cur =>
    if c = '/' then
      if cur = [] then splitSegsAux rest []
      else cur.reverse :: splitSegsAux rest []
    else
      splitSegsAux rest (c :: cur)

def splitSegs (cs : List Char) : List (List Char) := splitSegsAux cs []

/-- One step of path normalisation: `.` and empty segments vanish, `..`
removes the previous segment (or nothing at the filesystem root), any
other segment is appended. -/
def normStep (acc : List (List Char)) (seg : List Char) : List (List Char) :=
  if seg = [] then acc
  else if seg = ['.'] then acc
  else if seg = ['.', '.'] then acc.dropLast
  else acc ++ [seg]

/-- Resolve a sequence of segments against the filesystem root. -/
def normSegs (segs : List (List Char)) : List (List Char) :=
  segs.foldl normStep []

/-- `__dirname` of the server process. -/
def dirnameSegs : List (List Char) := ["srv".data]

/-- `UPLOAD_DIR = path.resolve(__dirname, "uploads")`. -/
def uploadDirSegs : List (List Char) := dirnameSegs ++ ["uploads".data]

/-- The generated filename: `Date.now() + "-" + file.originalname`. -/
def multerFilename (now : Nat) (originalname : List Char) : List Char :=
  natChars now ++ '-' :: originalname

/-- The `filename` callback of the disk storage: it always succeeds with
the generated name (`cb(null, unique)`); there is no rejection branch. -/
def filenameCallback (now : Nat) (originalname : List Char) :
    Except String (List Char) :=
  .ok (multerFilename now originalname)

/-- Where the staged file ends up on disk: the upload directory joined
with the generated filename, resolved by the filesystem. -/
def storedPath (now : Nat) (originalname : List Char) : List (List Char) :=
  normSegs (uploadDirSegs ++ splitSegs (multerFilename now originalname))

/-- A path is inside the upload root when the root's segments are a
prefix of the resolved path's segments. -/
def resolvesInside (root p : List (List Char)) : Bool :=
  root.isPrefixOf p

/-! ## POST /ask (src/server.js lines 334–372)

Guards: `if (!question)` → 400 "Missing question.";
`if (!session_ids || session_ids.length === 0)` → 400 "Missing
session_ids.".  Then the user's turn is pushed onto
`req.session.chatHistory` (initialised to `[]` when absent), the
question together with `session_ids` and the updated history is sent
downstream, and on success the assistant's turn is pushed and the
response forwarded; on failure a 500 is returned.

In JS `!question` is true for `undefined` and for the empty string;
request bodies are modelled with `Option` for absent fields. -/

structure AskBody where
  question : Option String
  session_ids : Option (List String)
deriving DecidableEq, Repr

/-- The JSON payload of the downstream `POST /ask` call. -/
structure AskForward where
  question : String
  session_ids : List String
  history : List ChatTurn
deriving DecidableEq, Repr

inductive AskDownstream where
  | ok (answer : String)
  | err
deriving DecidableEq, Repr

structure AskOutcome where
  status : Nat
  sess : SessionState
  forwarded : Option AskForward
deriving DecidableEq, Repr

def askRoute (sess : SessionState) (body : AskBody)
    (downstream : AskDownstream) : AskOutcome :=
  match body.question with
  | none => ⟨400, sess, none⟩
  | some q =>
    if q = "" then ⟨400, sess, none⟩
    else
      match body.session_ids with
      | none => ⟨400, sess, none⟩
      | some ids =>
        if ids.length = 0 then ⟨400, sess, none⟩
        else
          let h₀ := sess.chatHistory.getD []
          let h₁ := h₀ ++ [⟨"user", q⟩]
          let payload : AskForward := ⟨q, ids, h₁⟩
          match downstream with
          | .ok a =>
            ⟨200, { sess with chatHistory := some (h₁ ++ [⟨"assistant", a⟩]) },
              some payload⟩
          | .err =>
            ⟨500, { sess with chatHistory := some h₁ }, some payload⟩

/-! ## POST /summarize and POST /compare (src/server.js lines 383–424)

Both check `session_ids` before any downstream call: summarize rejects
a missing or empty list, compare rejects fewer than two entries. -/

inductive RouteAction where
  | clientError (status : Nat) (msg : String)
  | callDownstream (session_ids : List String)
deriving DecidableEq, Repr

def summarizeAction (session_ids : Option (List String)) : RouteAction :=
  match session_ids with
  | none => .clientError 400 "Missing session_ids."
  | some ids =>
    if ids.length = 0 then .clientError 400 "Missing session_ids."
    else .callDownstream ids

def compareAction (session_ids : Option (List String)) : RouteAction :=
  match session_ids with
  | none => .clientError 400 "Select at least 2 documents."
  | some ids =>
    if ids.length < 2 then .clientError 400 "Select at least 2 documents."
    else .callDownstream ids

/-- The pre-downstream decision of the /ask handler, in the same shape
as summarize/compare (`!question` also yields a 400 client error). -/
def askAction (body : AskBody) : RouteAction :=
  match body.question with
  | none => .clientError 400 "Missing question."
  | some q =>
    if q = "" then .clientError 400 "Missing question."
    else
      match body.session_ids with
      | none => .clientError 400 "Missing session_ids."
      | some ids =>
        if ids.length = 0 then .clientError 400 "Missing session_ids."
        else .callDownstream ids

def RouteAction.isClientError : RouteAction → Bool
  | .clientError _ _ => true
  | .callDownstream _ => false

/-! ## POST /clear-history (src/server.js lines 375–381)

`req.session.chatHistory = []`, then `res.json({message: "History
cleared"})`.  `currentSessionId` is untouched. -/

def clearHistoryRoute (sess : SessionState) : SessionState × String :=
  ({ sess with chatHistory := some [] }, "History cleared")

/-! ## GET /health and the 503 "not ready" upload handler
(src/server.js lines 457–459 and 207–223)

`app.get("/health", (req, res) => res.json({ status: "ok" }))` — a
static body, no state read or written.

The handler at lines 207–223 answers `POST /upload`: when a file is
present it unconditionally throws `new Error("RAG unhealthy")` and the
catch returns 503 `{status: "not ready", service: "pdf-qa-gateway",
dependencies: {rag_service: "unreachable"}}`; no downstream request is
made, so the answer is the same whatever the downstream's actual
state. -/

structure HealthBody where
  status : String
deriving DecidableEq, Repr

def healthRoute : Nat × HealthBody := (200, ⟨"ok"⟩)

structure NotReadyBody where
  status : String
  service : String
  rag_service : String
deriving DecidableEq, Repr

/-- The 207–223 handler.  `ragReachable` is the downstream's actual
state; the handler never consults it. -/
def uploadNotReadyRoute (hasFile : Bool) (_ragReachable : Bool) :
    Nat × Option NotReadyBody :=
  if hasFile then (503, some ⟨"not ready", "pdf-qa-gateway", "unreachable"⟩)
  else (400, none)

/-! ## Axios call configurations (src/server.js lines 294–301, 355–359,
391–395, 413–417)

The upload, summarize and compare forwards pass `timeout: 180000`
(upload additionally passes multipart headers); the ask forward at
lines 355–359 passes no config object at all, so axios applies its
default of no timeout.  `none` models an absent timeout. -/

structure AxiosCallConfig where
  timeout : Option Nat
deriving DecidableEq, Repr

def uploadAxiosConfig : AxiosCallConfig := ⟨some 180000⟩
def askAxiosConfig : AxiosCallConfig := ⟨none⟩
def summarizeAxiosConfig : AxiosCallConfig := ⟨some 180000⟩
def compareAxiosConfig : AxiosCallConfig := ⟨some 180000⟩

/-! ## Rate limiting (src/server.js lines 169–181)

`makeLimiter(max, msg)` builds an express-rate-limit instance with
`windowMs: 15 * 60 * 1000` and the given `max`; the four instances are
`uploadLimiter` (5), `askLimiter` (30), `summarizeLimiter` (10) and
`compareLimiter` (10), mounted on their respective routes.  The
counting algorithm itself lives in the express-rate-limit dependency,
embedded here as the fixed-window scheme the spec describes: one
counter and window start per (route, identity); a request after the
window has elapsed starts a fresh window; a request inside the window
increments the counter and is denied when the count exceeds `max`. -/

structure LimiterConfig where
  windowMs : Nat
  max : Nat
deriving DecidableEq, Repr

def makeLimiter (max : Nat) : LimiterConfig := ⟨15 * 60 * 1000, max⟩

inductive Route where
  | upload
  | ask
  | summarize
  | compare
deriving DecidableEq, Repr

def routeLimiter : Route → LimiterConfig
  | .upload => makeLimiter 5
  | .ask => makeLimiter 30
  | .summarize => makeLimiter 10
  | .compare => makeLimiter 10

structure WindowState where
  windowStart : Nat
  count : Nat
deriving DecidableEq, Repr

/-- All limiter windows: each route has its own store keyed by client
identity. -/
def LimiterStore := Route → String → Option WindowState

/-- Admit or deny one request: returns the decision and the updated
store.  A fresh identity, or one whose window has elapsed, starts a new
window with count 1; otherwise the counter is incremented atomically
and the request is denied when the count exceeds the route's `max`. -/
def admitRequest (route : Route) (identity : String) (now : Nat)
    (store : LimiterStore) : Bool × LimiterStore :=
  let cfg := routeLimiter route
  let next : WindowState :=
    match store route identity with
    | none => ⟨now, 1⟩
    | some w =>
      if cfg.windowMs ≤ now - w.windowStart then ⟨now, 1⟩
      else ⟨w.windowStart, w.count + 1⟩
  (next.count ≤ cfg.max,
    fun r i => if r = route ∧ i = identity then some next else store r i)

/-- A concrete limiter store: the upload window of client "alice"
started at time 1000 and already counts five requests (the upload
quota); every other window is fresh. -/
def c4Store : LimiterStore :=
  fun r i =>
    match r with
    | .upload => if i = "alice" then some ⟨1000, 5⟩ else none
    | _ => none

/-- A concrete session: downstream id "s0" and one recorded turn. -/
def c7Sess : SessionState := ⟨some "s0", some [⟨"user", "old"⟩]⟩

/-! ## Helper lemmas -/

lemma digitChar_ne_slash (k : Nat) : Nat.digitChar k ≠ '/' := by
  match k with
  | 0 => decide
  | 1 => decide
  | 2 => decide
  | 3 => decide
  | 4 => decide
  | 5 => decide
  | 6 => decide
  | 7 => decide
  | 8 => decide
  | 9 => decide
  | 10 => decide
  | 11 => decide
  | 12 => decide
  | 13 => decide
  | 14 => decide
  | 15 => decide
  | n + 16 =>
    unfold Nat.digitChar
    repeat rw [if_neg (by omega)]
    decide

lemma natCharsAux_no_slash : ∀ (fuel n : Nat) (acc : List Char),
    '/' ∉ acc → '/' ∉ natCharsAux fuel n acc
  | 0, _, _, h => h
  | fuel + 1, n, acc, h => by
    have hd : '/' ∉ Nat.digitChar (n % 10) :: acc := by
      intro m
      rcases List.mem_cons.mp m with e | m2
      · exact digitChar_ne_slash _ e.symm
      · exact h m2
    simp only [natCharsAux]
    split
    · exact hd
    · exact natCharsAux_no_slash fuel (n / 10) _ hd

lemma natChars_no_slash (n : Nat) : '/' ∉ natChars n :=
  natCharsAux_no_slash (n + 1) n [] (by simp)

lemma splitSegsAux_no_slash : ∀ (cs acc : List Char), '/' ∉ cs →
    splitSegsAux cs acc =
      if acc.reverse ++ cs = [] then [] else [acc.reverse ++ cs]
  | [], acc, _ => by
    simp only [splitSegsAux, List.append_nil]
    by_cases hacc : acc = []
    · subst hacc; simp
    · rw [if_neg hacc, if_neg (by simpa using hacc)]
  | c :: rest, acc, h => by
    simp only [List.mem_cons, not_or] at h
    have hc : ¬(c = '/') := fun e => h.1 e.symm
    rw [splitSegsAux, if_neg hc,
      splitSegsAux_no_slash rest (c :: acc) h.2]
    simp [List.append_assoc]

lemma splitSegs_no_slash (cs : List Char) (h : '/' ∉ cs) (hne : cs ≠ []) :
    splitSegs cs = [cs] := by
  unfold splitSegs
  rw [splitSegsAux_no_slash cs [] h]
  simp [hne]

lemma multerFilename_has_dash (now : Nat) (orig : List Char) :
    '-' ∈ multerFilename now orig :=
  List.mem_append.mpr (Or.inr (List.mem_cons_self _ _))

lemma multerFilename_no_slash (now : Nat) (orig : List Char)
    (h : '/' ∉ orig) : '/' ∉ multerFilename now orig := by
  intro m
  rcases List.mem_append.mp m with m1 | m2
  · exact natChars_no_slash now m1
  · rcases List.mem_cons.mp m2 with e | m3
    · exact absurd e (by decide)
    · exact h m3

lemma normSegs_upload_single (seg : List Char) (h1 : seg ≠ [])
    (h2 : seg ≠ ['.']) (h3 : seg ≠ ['.', '.']) :
    normSegs (uploadDirSegs ++ [seg]) = uploadDirSegs ++ [seg] := by
  have e1 : normStep [] "srv".data = ["srv".data] := by decide
  have e2 : normStep ["srv".data] "uploads".data =
      ["srv".data, "uploads".data] := by decide
  show normStep (normStep (normStep [] "srv".data) "uploads".data) seg = _
  rw [e1, e2]
  unfold normStep
  rw [if_neg h1, if_neg h2, if_neg h3]
  rfl

lemma filter_covered (l₀ l : List String) (hsub : ∀ q ∈ l, q ∈ l₀) :
    l.filter (fun q => !(l₀.contains q)) = [] := by
  rw [List.filter_eq_nil_iff]
  intro a ha
  simp
  exact hsub a ha

lemma erase_append_filter (fs : List String) (p : String) :
    ((fs ++ [p]).erase p).filter (fun q => !(fs.contains q)) = [] := by
  by_cases hp : p ∈ fs
  · rw [List.erase_append_left _ hp]
    exact filter_covered fs _ (fun q hq => by
      rcases List.mem_append.mp hq with h1 | h2
      · exact List.mem_of_mem_erase h1
      · rcases List.mem_singleton.mp h2 with rfl; exact hp)
  · rw [List.erase_append_right _ hp]
    simp only [List.erase_cons_head, List.append_nil]
    exact filter_covered fs fs (fun q hq => hq)

/-! ## Claims -/

/-- C1, counterexample.  A 5-byte file whose content `hello` does not
start with the `%PDF-` magic signature, declared as
`application/pdf`, is admitted by the file filter and the upload
completes with status 200 — it is not rejected with a
`ContentMismatch` signal (no such signal exists in the code). -/
theorem c1_magic_mismatch_not_rejected :
    pdfMagicMatches "hello".data = false ∧
    fileFilter "application/pdf" = true ∧
    (uploadRoute (some ⟨"evil.pdf", "application/pdf", 5, "hello".data,
        "srv/uploads/1700-evil.pdf"⟩) [] ⟨none, none⟩
      (.ok "ok" "s1")).status = 200 := by
  decide

/-- C1, amended.  The upload filter consults only the declared
content-type: a declared type other than `application/pdf` is rejected
with a 400 and nothing written, and the outcome of the route never
depends on the file's content bytes — the magic signature is never
inspected. -/
theorem c1_filter_checks_declared_type_only (f : UploadFile)
    (c₁ c₂ : List Char) (fs : List String) (sess : SessionState)
    (rag : RagUploadResult) :
    (fileFilter f.mimetype = true ↔ f.mimetype = "application/pdf") ∧
    (f.mimetype ≠ "application/pdf" →
      uploadRoute (some f) fs sess rag = ⟨400, fs, sess⟩) ∧
    uploadRoute (some { f with content := c₁ }) fs sess rag =
      uploadRoute (some { f with content := c₂ }) fs sess rag := by
  refine ⟨?_, ?_, ?_⟩
  · simp [fileFilter]
  · intro hmt
    have hf : fileFilter f.mimetype = false := by
      simp [fileFilter, hmt]
    simp [uploadRoute, hf]
  · simp only [uploadRoute, fileFilter]

/-- C1, witness for the amended theorem. -/
theorem c1_filter_checks_declared_type_only_witness :
    (fileFilter "text/plain" = true ↔
      ("text/plain" : String) = "application/pdf") ∧
    uploadRoute (some ⟨"a.txt", "text/plain", 3, "abc".data, "p"⟩) []
      ⟨none, none⟩ .err = ⟨400, [], ⟨none, none⟩⟩ ∧
    uploadRoute (some ⟨"a.txt", "text/plain", 3, "x".data, "p"⟩) []
        ⟨none, none⟩ .err =
      uploadRoute (some ⟨"a.txt", "text/plain", 3, "y".data, "p"⟩) []
        ⟨none, none⟩ .err := by
  have h := c1_filter_checks_declared_type_only
    ⟨"a.txt", "text/plain", 3, "abc".data, "p"⟩ "x".data "y".data []
    ⟨none, none⟩ .err
  exact ⟨h.1, h.2.1 (by decide), h.2.2⟩

/-- C2, counterexample.  The filename callback never rejects: for the
client-supplied original filename `../../../evil.pdf` it produces the
staging name `1700-../../../evil.pdf`, whose on-disk path resolves to
`/srv/evil.pdf`, outside the configured upload root `/srv/uploads`. -/
theorem c2_traversal_escapes_upload_root :
    filenameCallback 1700 "../../../evil.pdf".data =
      .ok "1700-../../../evil.pdf".data ∧
    storedPath 1700 "../../../evil.pdf".data =
      ["srv".data, "evil.pdf".data] ∧
    resolvesInside uploadDirSegs (storedPath 1700 "../../../evil.pdf".data)
      = false :=
  ⟨rfl, by decide, by decide⟩

/-- C2, amended.  The staging path is the upload root joined with
`Date.now() + "-" + originalname` and the filename callback never
rejects; when the original filename contains no `/` separator the
resulting path stays inside the upload root, but no traversal check is
performed anywhere (an originalname with three `../` segments escapes
the root, per the counterexample). -/
theorem c2_no_traversal_rejection (now : Nat) (orig : List Char)
    (h : '/' ∉ orig) :
    filenameCallback now orig = .ok (multerFilename now orig) ∧
    resolvesInside uploadDirSegs (storedPath now orig) = true := by
  have hdash := multerFilename_has_dash now orig
  have hslash := multerFilename_no_slash now orig h
  have hne : multerFilename now orig ≠ [] := List.ne_nil_of_mem hdash
  have h2 : multerFilename now orig ≠ ['.'] := by
    intro e; rw [e] at hdash; exact absurd hdash (by decide)
  have h3 : multerFilename now orig ≠ ['.', '.'] := by
    intro e; rw [e] at hdash; exact absurd hdash (by decide)
  refine ⟨rfl, ?_⟩
  unfold storedPath
  rw [splitSegs_no_slash _ hslash hne, normSegs_upload_single _ hne h2 h3]
  exact List.isPrefixOf_iff_prefix.mpr (List.prefix_append _ _)

/-- C2, witness for the amended theorem. -/
theorem c2_no_traversal_rejection_witness :
    '/' ∉ "report.pdf".data ∧
    filenameCallback 1700 "report.pdf".data =
      .ok (multerFilename 1700 "report.pdf".data) ∧
    resolvesInside uploadDirSegs (storedPath 1700 "report.pdf".data)
      = true := by
  have h := c2_no_traversal_rejection 1700 "report.pdf".data (by decide)
  exact ⟨by decide, h.1, h.2⟩

/-- C3.  Whatever the staged file, the prior filesystem contents and
the downstream outcome (success, failure or timeout) — and also on the
rejection paths where multer never leaves a file — the upload route
leaves behind no path that was not already present before the request:
the staged temporary file is always deleted. -/
theorem c3_upload_leaves_no_artifact (file? : Option UploadFile)
    (fs : List String) (sess : SessionState) (rag : RagUploadResult) :
    ((uploadRoute file? fs sess rag).fs).filter
      (fun p => !(fs.contains p)) = [] := by
  cases file? with
  | none => exact filter_covered fs fs (fun q hq => hq)
  | some f =>
    show ((if fileFilter f.mimetype then
        if f.size ≤ fileSizeLimit then
          match rag with
          | .ok _msg sid =>
            UploadOutcome.mk 200 ((fs ++ [f.path]).erase f.path)
              { currentSessionId := some sid, chatHistory := some [] }
          | .err => UploadOutcome.mk 500 ((fs ++ [f.path]).erase f.path) sess
          | .timeout =>
            UploadOutcome.mk 500 ((fs ++ [f.path]).erase f.path) sess
        else UploadOutcome.mk 413 fs sess
      else UploadOutcome.mk 400 fs sess).fs).filter
        (fun p => !(fs.contains p)) = []
    by_cases hf : fileFilter f.mimetype
    · rw [if_pos hf]
      by_cases hsz : f.size ≤ fileSizeLimit
      · rw [if_pos hsz]
        cases rag with
        | ok m s => exact erase_append_filter fs f.path
        | err => exact erase_append_filter fs f.path
        | timeout => exact erase_append_filter fs f.path
      · rw [if_neg hsz]
        exact filter_covered fs fs (fun q hq => hq)
    · rw [if_neg hf]
      exact filter_covered fs fs (fun q hq => hq)

/-- C4.  The four routes carry the quotas (5, 30, 10, 10) over
15-minute windows; a request from an identity whose window already
counts `max` requests and has not yet elapsed is denied; a request
arriving once the window duration has elapsed from the window start is
admitted again; and admitting a request on one (route, identity) pair
leaves every other pair's window untouched. -/
theorem c4_fixed_window_rate_limits (route route' : Route)
    (id id' : String) (t0 c now : Nat) (store : LimiterStore) :
    (routeLimiter .upload).max = 5 ∧
    (routeLimiter .ask).max = 30 ∧
    (routeLimiter .summarize).max = 10 ∧
    (routeLimiter .compare).max = 10 ∧
    (routeLimiter route).windowMs = 15 * 60 * 1000 ∧
    (store route id = some ⟨t0, (routeLimiter route).max⟩ →
      now - t0 < (routeLimiter route).windowMs →
      (admitRequest route id now store).1 = false) ∧
    (store route id = some ⟨t0, c⟩ →
      (routeLimiter route).windowMs ≤ now - t0 →
      (admitRequest route id now store).1 = true) ∧
    (¬(route' = route ∧ id' = id) →
      (admitRequest route id now store).2 route' id' = store route' id') := by
  refine ⟨rfl, rfl, rfl, rfl, ?_, ?_, ?_, ?_⟩
  · cases route <;> rfl
  · intro hst hwin
    simp only [admitRequest, hst]
    rw [if_neg (by omega)]
    simp
  · intro hst hwin
    simp only [admitRequest, hst]
    rw [if_pos hwin]
    have : 1 ≤ (routeLimiter route).max := by cases route <;> decide
    simpa using this
  · intro hne
    simp only [admitRequest]
    exact if_neg hne

/-- C4, witness. -/
theorem c4_fixed_window_rate_limits_witness :
    (admitRequest .upload "alice" 1005 c4Store).1 = false ∧
    (admitRequest .upload "alice" (1000 + 15 * 60 * 1000) c4Store).1
      = true ∧
    (admitRequest .upload "alice" 1005 c4Store).2 .ask "alice" =
      c4Store .ask "alice" := by
  have h₁ := c4_fixed_window_rate_limits .upload .ask "alice" "alice"
    1000 5 1005 c4Store
  have h₂ := c4_fixed_window_rate_limits .upload .ask "alice" "alice"
    1000 5 (1000 + 15 * 60 * 1000) c4Store
  refine ⟨?_, ?_, ?_⟩
  · exact h₁.2.2.2.2.2.1 rfl (by decide)
  · exact h₂.2.2.2.2.2.2.1 rfl (by omega)
  · exact h₁.2.2.2.2.2.2.2 (by simp)

/-- C5.  ask and summarize requests with a missing or empty
`session_ids` list get a 400 with no downstream call and no session
mutation; compare requests with fewer than two ids get a 400; and each
route reaches its downstream call only when its guard passed (question
present and nonempty, enough session ids). -/
theorem c5_guards_fail_fast (sess : SessionState) (d : AskDownstream)
    (qb : AskBody) (s c : Option (List String)) (ids : List String)
    (fwd : AskForward) :
    ((qb.session_ids = none ∨ qb.session_ids = some []) →
      (askRoute sess qb d).status = 400 ∧
      (askRoute sess qb d).forwarded = none ∧
      (askRoute sess qb d).sess = sess) ∧
    ((s.getD []).length = 0 →
      summarizeAction s = .clientError 400 "Missing session_ids.") ∧
    ((c.getD []).length < 2 →
      compareAction c = .clientError 400 "Select at least 2 documents.") ∧
    ((askRoute sess qb d).forwarded = some fwd →
      qb.question = some fwd.question ∧ fwd.question ≠ "" ∧
      qb.session_ids = some fwd.session_ids ∧ fwd.session_ids ≠ []) ∧
    (summarizeAction s = .callDownstream ids → s = some ids ∧ ids ≠ []) ∧
    (compareAction c = .callDownstream ids →
      c = some ids ∧ 2 ≤ ids.length) := by
  refine ⟨?_, ?_, ?_, ?_, ?_, ?_⟩
  · intro hids
    rcases qb with ⟨q?, sids?⟩
    rcases hids with h | h <;> subst h <;>
      cases q? with
      | none => exact ⟨rfl, rfl, rfl⟩
      | some q =>
        by_cases hq : q = "" <;>
          simp [askRoute, hq]
  · intro hlen
    cases s with
    | none => rfl
    | some ids₀ =>
      simp only [Option.getD] at hlen
      simp [summarizeAction, List.length_eq_zero.mp hlen]
  · intro hlen
    cases c with
    | none => rfl
    | some ids₀ =>
      simp only [Option.getD] at hlen
      simp [compareAction, hlen]
  · intro hfwd
    rcases qb with ⟨q?, sids?⟩
    cases q? with
    | none => exact absurd hfwd (by simp [askRoute])
    | some q =>
      by_cases hq : q = ""
      · exact absurd hfwd (by simp [askRoute, hq])
      · cases sids? with
        | none => exact absurd hfwd (by simp [askRoute, hq])
        | some ids₀ =>
          by_cases hlen : ids₀.length = 0
          · exact absurd hfwd (by simp [askRoute, hq, hlen])
          · have hne : ids₀ ≠ [] := fun e => hlen (by simp [e])
            cases d with
            | ok a =>
              simp only [askRoute, if_neg hq, if_neg hlen,
                Option.some.injEq] at hfwd
              rw [← hfwd]
              exact ⟨rfl, hq, rfl, hne⟩
            | err =>
              simp only [askRoute, if_neg hq, if_neg hlen,
                Option.some.injEq] at hfwd
              rw [← hfwd]
              exact ⟨rfl, hq, rfl, hne⟩
  · intro hact
    cases s with
    | none => exact absurd hact (by simp [summarizeAction])
    | some ids₀ =>
      by_cases hlen : ids₀.length = 0
      · exact absurd hact (by simp [summarizeAction, hlen])
      · simp only [summarizeAction, if_neg hlen,
          RouteAction.callDownstream.injEq] at hact
        subst hact
        exact ⟨rfl, fun e => hlen (by simp [e])⟩
  · intro hact
    cases c with
    | none => exact absurd hact (by simp [compareAction])
    | some ids₀ =>
      by_cases hlen : ids₀.length < 2
      · exact absurd hact (by simp [compareAction, hlen])
      · simp only [compareAction, if_neg hlen,
          RouteAction.callDownstream.injEq] at hact
        subst hact
        exact ⟨rfl, by omega⟩

/-- C5, witness. -/
theorem c5_guards_fail_fast_witness :
    ((askRoute ⟨none, none⟩ ⟨some "q", some []⟩ .err).status = 400 ∧
      (askRoute ⟨none, none⟩ ⟨some "q", some []⟩ .err).forwarded = none ∧
      (askRoute ⟨none, none⟩ ⟨some "q", some []⟩ .err).sess
        = ⟨none, none⟩) ∧
    summarizeAction (some []) = .clientError 400 "Missing session_ids." ∧
    compareAction (some ["a"]) =
      .clientError 400 "Select at least 2 documents." ∧
    (some "q" = some (AskForward.question ⟨"q", ["a"], [⟨"user", "q"⟩]⟩) ∧
      AskForward.question ⟨"q", ["a"], [⟨"user", "q"⟩]⟩ ≠ "" ∧
      some ["a"] = some (AskForward.session_ids
        ⟨"q", ["a"], [⟨"user", "q"⟩]⟩) ∧
      AskForward.session_ids ⟨"q", ["a"], [⟨"user", "q"⟩]⟩ ≠ []) ∧
    (some ["a"] = some ["a"] ∧ ["a"] ≠ ([] : List String)) ∧
    (some ["a", "b"] = some ["a", "b"] ∧
      2 ≤ (["a", "b"] : List String).length) := by
  have h₁ := c5_guards_fail_fast ⟨none, none⟩ .err ⟨some "q", some []⟩
    (some []) (some ["a"]) ["a"] ⟨"q", ["a"], [⟨"user", "q"⟩]⟩
  have h₂ := c5_guards_fail_fast ⟨none, none⟩ .err
    ⟨some "q", some ["a"]⟩ (some ["a"]) (some ["a", "b"]) ["a", "b"]
    ⟨"q", ["a"], [⟨"user", "q"⟩]⟩
  have h₃ := c5_guards_fail_fast ⟨none, none⟩ .err
    ⟨some "q", some ["a"]⟩ (some ["a"]) (some ["a", "b"]) ["a"]
    ⟨"q", ["a"], [⟨"user", "q"⟩]⟩
  refine ⟨h₁.1 (Or.inr rfl), h₁.2.1 (by decide), h₁.2.2.1 (by decide),
    ?_, h₃.2.2.2.2.1 rfl, h₂.2.2.2.2.2 rfl⟩
  exact h₂.2.2.2.1 (by decide)

/-- C6.  For a validated ask request the forwarded payload's history
already carries the user's turn (it is appended before the downstream
call, so it is identical whether the call later succeeds or fails); on
success the assistant's turn is appended after it, and on failure the
handler returns 500 with the user's turn recorded and no assistant
turn. -/
theorem c6_history_append_order (sess : SessionState) (q a : String)
    (ids : List String) (hq : q ≠ "") (hids : ids ≠ []) :
    (askRoute sess ⟨some q, some ids⟩ (.ok a)).forwarded =
      some ⟨q, ids, sess.chatHistory.getD [] ++ [⟨"user", q⟩]⟩ ∧
    (askRoute sess ⟨some q, some ids⟩ .err).forwarded =
      some ⟨q, ids, sess.chatHistory.getD [] ++ [⟨"user", q⟩]⟩ ∧
    (askRoute sess ⟨some q, some ids⟩ (.ok a)).sess.chatHistory =
      some (sess.chatHistory.getD [] ++
        [⟨"user", q⟩, ⟨"assistant", a⟩]) ∧
    (askRoute sess ⟨some q, some ids⟩ (.ok a)).status = 200 ∧
    (askRoute sess ⟨some q, some ids⟩ .err).sess.chatHistory =
      some (sess.chatHistory.getD [] ++ [⟨"user", q⟩]) ∧
    (askRoute sess ⟨some q, some ids⟩ .err).status = 500 := by
  have hlen : ¬((ids : List String).length = 0) := by
    simpa [List.length_eq_zero] using hids
  simp [askRoute, hq, hlen]

/-- C6, witness. -/
theorem c6_history_append_order_witness :
    (askRoute ⟨some "s0", some [⟨"user", "old"⟩]⟩
        ⟨some "q1", some ["s1"]⟩ (.ok "a1")).forwarded =
      some ⟨"q1", ["s1"], [⟨"user", "old"⟩, ⟨"user", "q1"⟩]⟩ ∧
    (askRoute ⟨some "s0", some [⟨"user", "old"⟩]⟩
        ⟨some "q1", some ["s1"]⟩ .err).forwarded =
      some ⟨"q1", ["s1"], [⟨"user", "old"⟩, ⟨"user", "q1"⟩]⟩ ∧
    (askRoute ⟨some "s0", some [⟨"user", "old"⟩]⟩
        ⟨some "q1", some ["s1"]⟩ (.ok "a1")).sess.chatHistory =
      some [⟨"user", "old"⟩, ⟨"user", "q1"⟩, ⟨"assistant", "a1"⟩] ∧
    (askRoute ⟨some "s0", some [⟨"user", "old"⟩]⟩
        ⟨some "q1", some ["s1"]⟩ (.ok "a1")).status = 200 ∧
    (askRoute ⟨some "s0", some [⟨"user", "old"⟩]⟩
        ⟨some "q1", some ["s1"]⟩ .err).sess.chatHistory =
      some [⟨"user", "old"⟩, ⟨"user", "q1"⟩] ∧
    (askRoute ⟨some "s0", some [⟨"user", "old"⟩]⟩
        ⟨some "q1", some ["s1"]⟩ .err).status = 500 := by
  have h := c6_history_append_order ⟨some "s0", some [⟨"user", "old"⟩]⟩
    "q1" "a1" ["s1"] (by decide) (by decide)
  simpa using h

/-- C7.  Clearing the history empties the session's chat history,
returns the message "History cleared" and leaves the stored downstream
session id untouched; an ask issued afterwards against the same
document ids still succeeds. -/
theorem c7_clear_history_frame (sess : SessionState) (q a : String)
    (ids : List String) (hq : q ≠ "") (hids : ids ≠ []) :
    (clearHistoryRoute sess).1.currentSessionId =
      sess.currentSessionId ∧
    (clearHistoryRoute sess).1.chatHistory = some [] ∧
    (clearHistoryRoute sess).2 = "History cleared" ∧
    (askRoute (clearHistoryRoute sess).1 ⟨some q, some ids⟩
      (.ok a)).status = 200 := by
  have hlen : ¬((ids : List String).length = 0) := by
    simpa [List.length_eq_zero] using hids
  exact ⟨rfl, rfl, rfl, by simp [clearHistoryRoute, askRoute, hq, hlen]⟩

/-- C7, witness. -/
theorem c7_clear_history_frame_witness :
    (clearHistoryRoute c7Sess).1.currentSessionId = c7Sess.currentSessionId ∧
    (clearHistoryRoute c7Sess).1.chatHistory = some [] ∧
    (clearHistoryRoute c7Sess).2 = "History cleared" ∧
    (askRoute (clearHistoryRoute c7Sess).1 ⟨some "q", some ["s0"]⟩
      (.ok "a")).status = 200 := by
  exact c7_clear_history_frame c7Sess "q" "a" ["s0"] (by decide) (by decide)

/-- C8, counterexample.  The liveness handler is mounted at
`GET /health` and its body is `{status: "ok"}`, not the claimed
`{status: "healthy"}`; and the only handler that produces the 503
`dependencies.rag_service = "unreachable"` body answers `POST /upload`
and returns it even when the downstream is reachable, performing no
bounded-timeout check at all. -/
theorem c8_health_body_and_unconditional_503 :
    healthRoute.2 = ⟨"ok"⟩ ∧
    HealthBody.status healthRoute.2 ≠ "healthy" ∧
    uploadNotReadyRoute true true = uploadNotReadyRoute true false ∧
    (uploadNotReadyRoute true true).1 = 503 := by
  decide

/-- C8, amended.  `GET /health` statically returns 200
`{status: "ok"}` with no side effects and never fails; there is no
readiness endpoint — the 503 `{status: "not ready", service:
"pdf-qa-gateway", dependencies: {rag_service: "unreachable"}}` body is
produced by a `POST /upload` handler that returns it unconditionally
whenever a file is present (400 otherwise), never consulting the
downstream service. -/
theorem c8_health_static_notready_unconditional (h r₁ r₂ : Bool) :
    healthRoute = (200, ⟨"ok"⟩) ∧
    uploadNotReadyRoute h r₁ = uploadNotReadyRoute h r₂ ∧
    uploadNotReadyRoute true r₁ =
      (503, some ⟨"not ready", "pdf-qa-gateway", "unreachable"⟩) ∧
    uploadNotReadyRoute false r₁ = (400, none) := by
  cases h <;> exact ⟨rfl, rfl, rfl, rfl⟩

/-- C9, counterexample.  The downstream call of the /ask handler is
issued without any config object, so its timeout is absent (axios's
default, i.e. unbounded) — not a finite timeout. -/
theorem c9_ask_call_has_no_timeout : askAxiosConfig.timeout = none :=
  rfl

/-- C9, amended.  The upload, summarize and compare forwards each
carry a finite 180000 ms timeout, while the ask forward carries no
timeout at all. -/
theorem c9_timeout_budgets :
    uploadAxiosConfig.timeout = some 180000 ∧
    summarizeAxiosConfig.timeout = some 180000 ∧
    compareAxiosConfig.timeout = some 180000 ∧
    askAxiosConfig.timeout = none := by
  decide

/-- C10.  Any upload that passes the filter and size bound and whose
downstream call succeeds overwrites the stored session id with the
`session_id` the downstream returned and resets the chat history to
the empty list, whatever the session held before. -/
theorem c10_upload_resets_session (f : UploadFile) (fs : List String)
    (sess : SessionState) (m sid : String)
    (hmt : f.mimetype = "application/pdf")
    (hsz : f.size ≤ fileSizeLimit) :
    (uploadRoute (some f) fs sess (.ok m sid)).sess =
      ⟨some sid, some []⟩ ∧
    (uploadRoute (some f) fs sess (.ok m sid)).status = 200 := by
  have hf : fileFilter f.mimetype = true := by simp [fileFilter, hmt]
  constructor <;> simp [uploadRoute, hf, hsz]

/-- C10, witness. -/
theorem c10_upload_resets_session_witness :
    (uploadRoute (some ⟨"doc.pdf", "application/pdf", 9, "%PDF-1.4.".data,
        "srv/uploads/1700-doc.pdf"⟩) ["other"] c7Sess
      (.ok "ok" "s9")).sess = ⟨some "s9", some []⟩ ∧
    (uploadRoute (some ⟨"doc.pdf", "application/pdf", 9, "%PDF-1.4.".data,
        "srv/uploads/1700-doc.pdf"⟩) ["other"] c7Sess
      (.ok "ok" "s9")).status = 200 := by
  exact c10_upload_resets_session
    ⟨"doc.pdf", "application/pdf", 9, "%PDF-1.4.".data,
      "srv/uploads/1700-doc.pdf"⟩ ["other"] c7Sess "ok" "s9"
    rfl (by decide)

end PdfQaBot
